import Mathlib

/-!
# Verification of the `gametorch` animation-generation workflow

Shallow embedding of `animations::generate` from `src/lib.rs` of the
`gametorch` repository, together with the surrounding poll loop and
artifact (ZIP) fetch loop.  Network interactions are modelled by an
explicit environment (`Env`) supplying the observations of one run:
the submission response, the finite sequence of poll responses, the
finite sequence of artifact-fetch responses, the file-read oracle and
the write outcome.  A `Trace` records the externally visible effects:
the submitted request body, the number of poll / artifact-fetch HTTP
calls, the number of 5-second sleeps in each loop, and the list of
completed filesystem writes.

The two `loop`s of the source are unbounded; here each consumes a
finite list of prepared responses, and running out of responses is
reported as a distinguished `exhausted` outcome (the source loop would
still be running at that point).

Byte strings are `List Nat` (each element a byte value `< 256` in the
intended interpretation); JSON numbers are modelled as `Int`, matching
the `as_i64` accesses performed by the source.
-/

namespace GameTorch

/-- JSON values, as used by the source via `serde_json::Value`. -/
inductive Json where
  | null
  | bool (b : Bool)
  | num (n : Int)
  | str (s : String)
  | arr (elems : List Json)
  | obj (fields : List (String × Json))

/-- Field lookup, `Value::get(key)` on an object (returns `None` on
non-objects). -/
def Json.get : Json → String → Option Json
  | .obj fs, k => fs.lookup k
  | _, _ => none

/-- Index lookup, `Value::get(index)` on an array (returns `None` on
non-arrays). -/
def Json.getIdx : Json → Nat → Option Json
  | .arr xs, i => xs.get? i
  | _, _ => none

/-- Numeric view, `Value::as_i64`. -/
def Json.asI64 : Json → Option Int
  | .num n => some n
  | _ => none

/-- Array test, `Value::is_array`. -/
def Json.isArr : Json → Bool
  | .arr _ => true
  | _ => false

/-- Success test on HTTP status codes,
`reqwest::StatusCode::is_success`: the 2xx range. -/
def isSuccessCode (code : Nat) : Bool :=
  200 ≤ code && code < 300

/-- The base64 alphabet of `base64::engine::general_purpose::STANDARD`. -/
def b64Char (n : Nat) : Char :=
  if n < 26 then Char.ofNat (65 + n)
  else if n < 52 then Char.ofNat (97 + (n - 26))
  else if n < 62 then Char.ofNat (48 + (n - 52))
  else if n = 62 then '+'
  else '/'

/-- Standard base64 with `=` padding
(`general_purpose::STANDARD.encode`), on byte values. -/
def base64Encode : List Nat → String
  | [] => ""
  | [b1] =>
      String.mk [b64Char (b1 / 4), b64Char (b1 % 4 * 16), '=', '=']
  | [b1, b2] =>
      String.mk [b64Char (b1 / 4), b64Char (b1 % 4 * 16 + b2 / 16),
                 b64Char (b2 % 16 * 4), '=']
  | b1 :: b2 :: b3 :: rest =>
      String.mk [b64Char (b1 / 4), b64Char (b1 % 4 * 16 + b2 / 16),
                 b64Char (b2 % 16 * 4 + b3 / 64), b64Char (b3 % 64)]
        ++ base64Encode rest

/-! ## Poll loop (src/lib.rs lines 164–204) -/

/-- One observed response of `GET /api/animation_results/{id}`:
either the request fails (send error or `error_for_status`), which the
`?` operator turns into a workflow error, or a JSON payload arrives. -/
inductive PollResp where
  | err
  | ok (v : Json)

/-- Normalisation of a poll response before reading `status`
(lines 175–182): if the response is an array, read `status` from its
first element, otherwise directly from the object. -/
def statusOf (resp : Json) : Option Int :=
  if resp.isArr then
    ((resp.getIdx 0).bind (fun item => item.get "status")).bind Json.asI64
  else
    (resp.get "status").bind Json.asI64

/-- Terminal observation of the poll loop. -/
inductive PollOutcome where
  | complete (resp : Json)
  | failedRefunded
  | fetchFailed
  | exhausted

/-- Result of running the poll loop over a finite response sequence. -/
structure PollRun where
  outcome : PollOutcome
  sleeps : Nat
  calls : Nat

/-- The poll loop (lines 164–204): fetch, normalise, dispatch on
`status` (2 ⇒ complete with the full payload, 3 ⇒ failed-refunded,
anything else or missing ⇒ sleep 5 s and poll again).  `calls` counts
HTTP fetches, `sleeps` counts 5-second sleeps. -/
def pollLoop : List PollResp → PollRun
  | [] => ⟨.exhausted, 0, 0⟩
  | .err :: _ => ⟨.fetchFailed, 0, 1⟩
  | .ok v :: rest =>
    match statusOf v with
    | some 2 => ⟨.complete v, 0, 1⟩
    | some 3 => ⟨.failedRefunded, 0, 1⟩
    | _ =>
      let r := pollLoop rest
      ⟨r.outcome, r.sleeps + 1, r.calls + 1⟩

/-- Extraction of the result id from the terminal poll payload
(lines 207–215): first element's `id` for an array, `id` otherwise. -/
def resultIdOf (results : Json) : Option Int :=
  if results.isArr then
    ((results.getIdx 0).bind (fun item => item.get "id")).bind Json.asI64
  else
    (results.get "id").bind Json.asI64

/-! ## Artifact (ZIP) fetch loop (src/lib.rs lines 223–256) -/

/-- One observed response of `GET /api/animation_result_zip/{id}`:
a connection-level failure (`Err` from `send`), or an HTTP response
with a status code and body bytes. -/
inductive ZipResp where
  | conn
  | http (code : Nat) (body : List Nat)

/-- Terminal observation of the artifact-fetch loop. -/
inductive ZipOutcome where
  | success (bytes : List Nat)
  | remoteError (code : Nat)
  | transportError
  | timeout
  | exhausted

/-- Result of running the artifact-fetch loop over a finite response
sequence. -/
structure ZipRun where
  outcome : ZipOutcome
  sleeps : Nat
  calls : Nat

/-- The artifact-fetch loop (lines 223–256), with `waited` the
cumulative seconds slept so far (`waited_sec`, initially 0): 2xx
captures the bytes and exits; 500 means "zip not ready" — unless the
cumulative wait has reached 120 s (timeout), sleep 5 s and retry; any
other status is a permanent remote error; a connection failure is a
permanent transport error. -/
def zipFetchLoop (waited : Nat) : List ZipResp → ZipRun
  | [] => ⟨.exhausted, 0, 0⟩
  | .conn :: _ => ⟨.transportError, 0, 1⟩
  | .http code body :: rest =>
    if isSuccessCode code then ⟨.success body, 0, 1⟩
    else if code = 500 then
      if 120 ≤ waited then ⟨.timeout, 0, 1⟩
      else
        let r := zipFetchLoop (waited + 5) rest
        ⟨r.outcome, r.sleeps + 1, r.calls + 1⟩
    else ⟨.remoteError code, 0, 1⟩

/-! ## The `generate` workflow (src/lib.rs lines 59–276) -/

/-- The caller-supplied arguments of `generate` (the `api_key`,
`base_url` and `silent` parameters only affect headers, URLs and
console output, none of which the claims depend on). -/
structure Args where
  prompt : String
  duration : Nat
  block : Bool
  outputFile : Option String
  inputImagePath : Option String
  modelId : Option Nat
  modelName : Option String

/-- The environment of one run: the file-read oracle
(`tokio::fs::read`), the submission response (`Err` covering send
errors, non-2xx via `error_for_status`, and JSON decode errors, all
propagated by `?`), the prepared poll and artifact-fetch response
sequences, and whether the final `tokio::fs::write` succeeds. -/
structure Env where
  readFile : String → Except Unit (List Nat)
  submit : Except Unit Json
  pollResps : List PollResp
  zipResps : List ZipResp
  writeOk : Bool

/-- Externally visible effects of one `generate` run. -/
structure Trace where
  submitted : Option Json
  pollCalls : Nat
  pollSleeps : Nat
  zipCalls : Nat
  zipSleeps : Nat
  writes : List (String × List Nat)

/-- The trace before any effect has happened. -/
def Trace.empty : Trace := ⟨none, 0, 0, 0, 0, []⟩

/-- Workflow errors of `generate` (the source uses boxed string
errors; each constructor corresponds to one `return Err(...)` site or
one `?` propagation site). -/
inductive GErr where
  | invalidDuration
  | conflictingModel
  | ioError
  | submitFailed
  | missingAnimationId
  | pollFetchFailed
  | jobFailedRefunded
  | missingResultId
  | zipRemoteError (code : Nat)
  | zipTransportError
  | zipTimeout
  | writeFailed
  | pollNonTermination
  | zipNonTermination
deriving DecidableEq

/-- Lines 88–93: base64-encode the input image if a path is given,
else the empty string; a read failure aborts with an I/O error. -/
def inputImageB64 (env : Env) : Option String → Except Unit String
  | some p => (env.readFile p).map base64Encode
  | none => .ok ""

/-- Lines 96–127: the request body.  `prompt`, `duration_seconds` and
`input_image_base64` are always inserted; then exactly one model
selector (`animation_model_id` defaulting to 6, or
`animation_model_name`).  The both-`some` case is unreachable
(`unreachable!` in the source): `generate` rejects it beforehand. -/
def buildBody (a : Args) (b64 : String) : Json :=
  let base := [("prompt", Json.str a.prompt),
               ("duration_seconds", Json.num (a.duration : Int)),
               ("input_image_base64", Json.str b64)]
  match a.modelId, a.modelName with
  | some id, none => .obj (base ++ [("animation_model_id", Json.num (id : Int))])
  | none, some name => .obj (base ++ [("animation_model_name", Json.str name)])
  | none, none => .obj (base ++ [("animation_model_id", Json.num 6)])
  | some _, some _ => .obj base

/-- The destination path (lines 259–261): caller-supplied, or derived
as `animation_<animation_id>_<result_id>.zip`. -/
def zipPath (a : Args) (animId resultId : Int) : String :=
  match a.outputFile with
  | some s => s
  | none => "animation_" ++ toString animId ++ "_" ++ toString resultId ++ ".zip"

/-- The full `generate` workflow (lines 59–276): validate the
duration, reject conflicting model selectors, read/encode the input
image, submit, extract `animation_id`, return the raw submission
response if non-blocking, otherwise poll to completion, extract the
result id, fetch the artifact and write it once, returning
`{animation_id, result_id, zip_path}`. -/
def generate (a : Args) (env : Env) : Except GErr Json × Trace :=
  if a.duration ≠ 5 ∧ a.duration ≠ 10 then
    (.error .invalidDuration, .empty)
  else if a.modelId.isSome ∧ a.modelName.isSome then
    (.error .conflictingModel, .empty)
  else
    match inputImageB64 env a.inputImagePath with
    | .error _ => (.error .ioError, .empty)
    | .ok b64 =>
      match env.submit with
      | .error _ => (.error .submitFailed, ⟨some (buildBody a b64), 0, 0, 0, 0, []⟩)
      | .ok postResp =>
        match (postResp.get "animation_id").bind Json.asI64 with
        | none => (.error .missingAnimationId, ⟨some (buildBody a b64), 0, 0, 0, 0, []⟩)
        | some animId =>
          if a.block = false then
            (.ok postResp, ⟨some (buildBody a b64), 0, 0, 0, 0, []⟩)
          else
            match pollLoop env.pollResps with
            | ⟨.exhausted, ps, pc⟩ =>
                (.error .pollNonTermination, ⟨some (buildBody a b64), pc, ps, 0, 0, []⟩)
            | ⟨.fetchFailed, ps, pc⟩ =>
                (.error .pollFetchFailed, ⟨some (buildBody a b64), pc, ps, 0, 0, []⟩)
            | ⟨.failedRefunded, ps, pc⟩ =>
                (.error .jobFailedRefunded, ⟨some (buildBody a b64), pc, ps, 0, 0, []⟩)
            | ⟨.complete results, ps, pc⟩ =>
              match resultIdOf results with
              | none =>
                  (.error .missingResultId, ⟨some (buildBody a b64), pc, ps, 0, 0, []⟩)
              | some resultId =>
                match zipFetchLoop 0 env.zipResps with
                | ⟨.exhausted, zs, zc⟩ =>
                    (.error .zipNonTermination,
                     ⟨some (buildBody a b64), pc, ps, zc, zs, []⟩)
                | ⟨.transportError, zs, zc⟩ =>
                    (.error .zipTransportError,
                     ⟨some (buildBody a b64), pc, ps, zc, zs, []⟩)
                | ⟨.remoteError code, zs, zc⟩ =>
                    (.error (.zipRemoteError code),
                     ⟨some (buildBody a b64), pc, ps, zc, zs, []⟩)
                | ⟨.timeout, zs, zc⟩ =>
                    (.error .zipTimeout,
                     ⟨some (buildBody a b64), pc, ps, zc, zs, []⟩)
                | ⟨.success bytes, zs, zc⟩ =>
                  if env.writeOk then
                    (.ok (.obj [("animation_id", .num animId),
                                ("result_id", .num resultId),
                                ("zip_path", .str (zipPath a animId resultId))]),
                     ⟨some (buildBody a b64), pc, ps, zc, zs,
                      [(zipPath a animId resultId, bytes)]⟩)
                  else
                    (.error .writeFailed,
                     ⟨some (buildBody a b64), pc, ps, zc, zs, []⟩)

/-! ## Helper lemmas -/

/-- Every request body carries an `input_image_base64` field holding
exactly the encoded string, in each of the three model-selector
shapes. -/
theorem buildBody_b64 (a : Args) (s : String) :
    (buildBody a s).get "input_image_base64" = some (.str s) := by
  unfold buildBody
  split <;> simp [Json.get, List.lookup]

/-- If a run produced a trace with a submitted body, that body is
`buildBody` applied to the successfully encoded input image. -/
theorem submitted_shape (a : Args) (env : Env) (r : Except GErr Json) (t : Trace)
    (h : generate a env = (r, t)) :
    t.submitted = none ∨
      ∃ b64, inputImageB64 env a.inputImagePath = .ok b64 ∧
        t.submitted = some (buildBody a b64) := by
  unfold generate at h
  repeat' split at h
  all_goals cases h
  all_goals first
    | (left; rfl)
    | (right; exact ⟨_, by assumption, rfl⟩)

/-! ## Concrete runs used by the claims -/

/-- Arguments of the C1 end-to-end scenario: prompt "a dragon",
duration 5, blocking, no output file, no input image, no model
selector. -/
def c1Args : Args :=
  ⟨"a dragon", 5, true, none, none, none, none⟩

/-- Environment of the C1 end-to-end scenario: submission returns
`animation_id = 42`, the polls observe status 1 then status 2 with
result id 77, the artifact downloads on the first attempt, and the
write succeeds. -/
def c1Env : Env where
  readFile := fun _ => .error ()
  submit := .ok (.obj [("animation_id", .num 42)])
  pollResps := [.ok (.obj [("status", .num 1)]),
                .ok (.obj [("status", .num 2), ("id", .num 77)])]
  zipResps := [.http 200 [80, 75, 3, 4]]
  writeOk := true

/-- Arguments with an invalid duration (7), used to probe the failure
paths. -/
def probeArgs : Args := ⟨"p", 7, true, none, none, none, none⟩

/-- An inert environment: every interaction fails or is empty. -/
def probeEnv : Env := ⟨fun _ => .error (), .error (), [], [], true⟩

/-- Non-blocking arguments with a valid duration. -/
def c9Args : Args := ⟨"p", 5, false, none, none, none, none⟩

/-- Environment for the non-blocking run: submission succeeds and
poll / artifact responses are available but must not be consumed. -/
def c9Env : Env :=
  ⟨fun _ => .error (), .ok (.obj [("animation_id", .num 1)]),
   [.ok (.obj [("status", .num 2)])], [.http 200 [1]], true⟩

/-- Non-blocking arguments supplying an input image path. -/
def c10Args : Args := ⟨"p", 5, false, none, some "img.png", none, none⟩

/-- Environment whose file read yields the bytes `[77, 78, 79]`. -/
def c10Env : Env :=
  ⟨fun _ => .ok [77, 78, 79], .ok (.obj [("animation_id", .num 1)]), [], [], true⟩

/-! ## The claims -/

/-- C1: in the blocking end-to-end scenario (submission returns
`animation_id = 42`, polls observe status 1 then status 2 with result
id 77, the artifact downloads on the first attempt, no output file
given) `generate` returns animation id 42, result id 77 and the
derived destination path `animation_42_77.zip` (carried in the
`zip_path` field of the output object), after 2 poll calls with 1
sleep and a single artifact-fetch call, and writes exactly one file,
at that path, containing exactly the downloaded bytes. -/
theorem c1_blocking_end_to_end :
    generate c1Args c1Env =
      (.ok (.obj [("animation_id", .num 42), ("result_id", .num 77),
                  ("zip_path", .str "animation_42_77.zip")]),
       ⟨some (buildBody c1Args ""), 2, 1, 1, 0,
        [("animation_42_77.zip", [80, 75, 3, 4])]⟩) := rfl

/-- C2 counterexample: the response sequence consisting of a single
HTTP 404 answer contains no 2xx answer within 120 seconds of
cumulative waiting, yet the artifact fetch terminates with
`remoteError 404`, not with timeout — refuting the claim that every
such sequence fails with `Timeout`. -/
theorem c2_zip_timeout_counterexample :
    isSuccessCode 404 = false ∧
    zipFetchLoop 0 [ZipResp.http 404 []] = ⟨.remoteError 404, 0, 1⟩ ∧
    (zipFetchLoop 0 [ZipResp.http 404 []]).outcome ≠ ZipOutcome.timeout := by
  refine ⟨rfl, rfl, fun h => ZipOutcome.noConfusion h⟩

/-- C2 (amended): for every artifact-fetch response sequence in which
every attempt answers with the transient HTTP 500 status (hence no
attempt is 2xx) and which is long enough that the cumulative wait
reaches the 120-second ceiling, the fetch fails with timeout; and
once the cumulative wait has reached 120 seconds, the next 500 answer
terminates the loop with timeout after exactly one further call and
no further sleep, instead of retrying. -/
theorem c2_zip_timeout_amended :
    (∀ (rs : List ZipResp) (waited : Nat),
        (∀ r ∈ rs, ∃ b, r = ZipResp.http 500 b) → rs ≠ [] →
        120 ≤ waited + 5 * (rs.length - 1) →
        (zipFetchLoop waited rs).outcome = .timeout) ∧
    (∀ body rest waited, 120 ≤ waited →
        zipFetchLoop waited (.http 500 body :: rest) = ⟨.timeout, 0, 1⟩) := by
  constructor
  · intro rs
    induction rs with
    | nil => intro waited _ hne _; exact absurd rfl hne
    | cons r rest ih =>
      intro waited hall _ hlen
      obtain ⟨b, rfl⟩ := hall r (List.mem_cons_self r rest)
      by_cases hw : 120 ≤ waited
      · simp [zipFetchLoop, isSuccessCode, hw]
      · cases rest with
        | nil => exfalso; simp at hlen; omega
        | cons r2 rest2 =>
          have hrec := ih (waited + 5)
            (fun x hx => hall x (List.mem_cons_of_mem _ hx))
            (by simp) (by simp at hlen ⊢; omega)
          simpa [zipFetchLoop, isSuccessCode, hw] using hrec
  · intro body rest waited hw
    simp [zipFetchLoop, isSuccessCode, hw]

/-- C2 witness: a run of 25 consecutive 500 answers times out, and at
cumulative wait 120 a further 500 answer terminates immediately with
timeout. -/
theorem c2_zip_timeout_witness :
    (zipFetchLoop 0 (List.replicate 25 (ZipResp.http 500 []))).outcome =
        ZipOutcome.timeout ∧
    zipFetchLoop 120 [ZipResp.http 500 []] = ⟨.timeout, 0, 1⟩ :=
  ⟨c2_zip_timeout_amended.1 _ 0 (fun r hr => ⟨[], List.eq_of_mem_replicate hr⟩)
      (by simp) (by simp),
   c2_zip_timeout_amended.2 [] [] 120 (by omega)⟩

/-- C3 counterexample: at cumulative wait 120 an HTTP 500 answer does
not cause a 5-second wait and a retry: the loop terminates with
timeout after that single call, sleeping zero times. -/
theorem c3_zip_retry_counterexample :
    zipFetchLoop 120 [ZipResp.http 500 []] = ⟨.timeout, 0, 1⟩ ∧
    (zipFetchLoop 120 [ZipResp.http 500 []]).sleeps = 0 := ⟨rfl, rfl⟩

/-- C3 (amended): per-attempt dispatch of the artifact-fetch loop: a
2xx answer captures the body bytes and exits after that single call;
an HTTP 500 answer with cumulative wait still below the 120-second
ceiling adds one 5-second sleep and retries on the remaining
sequence; any other non-success status terminates permanently with
`remoteError` after that single call; a connection-level failure
terminates permanently with `transportError` after that single call;
and on the sequence [500, 500, 200] exactly two retries (5-second
sleeps) occur before the bytes are captured on the third call. -/
theorem c3_zip_attempt_dispatch :
    (∀ code body rest waited, isSuccessCode code = true →
        zipFetchLoop waited (.http code body :: rest) = ⟨.success body, 0, 1⟩) ∧
    (∀ body rest waited, waited < 120 →
        zipFetchLoop waited (.http 500 body :: rest) =
          ⟨(zipFetchLoop (waited + 5) rest).outcome,
           (zipFetchLoop (waited + 5) rest).sleeps + 1,
           (zipFetchLoop (waited + 5) rest).calls + 1⟩) ∧
    (∀ code body rest waited, isSuccessCode code = false → code ≠ 500 →
        zipFetchLoop waited (.http code body :: rest) = ⟨.remoteError code, 0, 1⟩) ∧
    (∀ rest waited, zipFetchLoop waited (.conn :: rest) = ⟨.transportError, 0, 1⟩) ∧
    (∀ b1 b2 b3, zipFetchLoop 0 [.http 500 b1, .http 500 b2, .http 200 b3] =
        ⟨.success b3, 2, 3⟩) := by
  refine ⟨?_, ?_, ?_, ?_, ?_⟩
  · intro code body rest waited h
    simp [zipFetchLoop, h]
  · intro body rest waited h
    have hw : ¬ 120 ≤ waited := by omega
    simp [zipFetchLoop, isSuccessCode, hw]
  · intro code body rest waited h h5
    simp [zipFetchLoop, h, h5]
  · intro rest waited
    rfl
  · intro b1 b2 b3
    rfl

/-- C3 witness: the five behaviours at concrete inputs: 200 succeeds
at once, 500 below the ceiling retries with one sleep, 404 is a
permanent remote error, a connection failure is a permanent transport
error, and [500, 500, 200] succeeds after exactly two sleeps and
three calls. -/
theorem c3_zip_attempt_dispatch_witness :
    zipFetchLoop 0 [ZipResp.http 200 [1]] = ⟨.success [1], 0, 1⟩ ∧
    zipFetchLoop 115 [ZipResp.http 500 []] =
      ⟨(zipFetchLoop 120 []).outcome, (zipFetchLoop 120 []).sleeps + 1,
       (zipFetchLoop 120 []).calls + 1⟩ ∧
    zipFetchLoop 0 [ZipResp.http 404 [2]] = ⟨.remoteError 404, 0, 1⟩ ∧
    zipFetchLoop 0 [ZipResp.conn] = ⟨.transportError, 0, 1⟩ ∧
    zipFetchLoop 0 [ZipResp.http 500 [], ZipResp.http 500 [], ZipResp.http 200 [9]] =
      ⟨.success [9], 2, 3⟩ :=
  ⟨c3_zip_attempt_dispatch.1 200 [1] [] 0 rfl,
   c3_zip_attempt_dispatch.2.1 [] [] 115 (by omega),
   c3_zip_attempt_dispatch.2.2.1 404 [2] [] 0 rfl (by omega),
   c3_zip_attempt_dispatch.2.2.2.1 [] 0,
   c3_zip_attempt_dispatch.2.2.2.2 [] [] [9]⟩

/-- C4: on a poll-response sequence whose statuses are 1, 1, 2, the
poll loop sleeps exactly twice (once after each status-1 observation,
none after the last), makes exactly three fetches, and terminates
complete with the full third payload. -/
theorem c4_poll_two_sleeps (v1 v2 v3 : Json)
    (h1 : statusOf v1 = some 1) (h2 : statusOf v2 = some 1)
    (h3 : statusOf v3 = some 2) :
    pollLoop [.ok v1, .ok v2, .ok v3] = ⟨.complete v3, 2, 3⟩ := by
  simp [pollLoop, h1, h2, h3]

/-- C4 witness: the concrete status-[1,1,2] sequence, the final
payload also carrying a result id. -/
theorem c4_poll_two_sleeps_witness :
    pollLoop [.ok (.obj [("status", .num 1)]), .ok (.obj [("status", .num 1)]),
              .ok (.obj [("status", .num 2), ("id", .num 77)])] =
      ⟨.complete (.obj [("status", .num 2), ("id", .num 77)]), 2, 3⟩ :=
  c4_poll_two_sleeps _ _ _ rfl rfl rfl

/-- C5: whenever a poll observation has status 3 the loop terminates
at once as failed-refunded: no sleep after that observation and no
further fetch (exactly one call), whatever responses follow. -/
theorem c5_failed_refunded (v : Json) (rest : List PollResp)
    (h : statusOf v = some 3) :
    pollLoop (.ok v :: rest) = ⟨.failedRefunded, 0, 1⟩ := by
  simp [pollLoop, h]

/-- C5 witness: a concrete status-3 observation followed by a further
available response that is never fetched. -/
theorem c5_failed_refunded_witness :
    pollLoop [.ok (.obj [("status", .num 3)]), .err] = ⟨.failedRefunded, 0, 1⟩ :=
  c5_failed_refunded _ _ rfl

/-- C6: the poll loop normalises before reading `status` — for an
array response the field is read from the first element (none when
the array is empty), for a non-array response directly from the
value — and any response whose normalised status is absent or is an
integer other than 2 and 3 does not terminate the loop: the loop
sleeps once and continues polling the remaining responses. -/
theorem c6_normalize_and_continue :
    (∀ item rest0,
        statusOf (.arr (item :: rest0)) = (item.get "status").bind Json.asI64) ∧
    statusOf (.arr []) = none ∧
    (∀ v, v.isArr = false → statusOf v = (v.get "status").bind Json.asI64) ∧
    (∀ v rest, (∀ s, statusOf v = some s → s ≠ 2 ∧ s ≠ 3) →
        pollLoop (.ok v :: rest) =
          ⟨(pollLoop rest).outcome, (pollLoop rest).sleeps + 1,
           (pollLoop rest).calls + 1⟩) := by
  refine ⟨?_, ?_, ?_, ?_⟩
  · intro item rest0
    simp [statusOf, Json.isArr, Json.getIdx]
  · simp [statusOf, Json.isArr, Json.getIdx]
  · intro v hv
    simp [statusOf, hv]
  · intro v rest h
    simp only [pollLoop]
    split
    · rename_i heq
      exact absurd rfl (h 2 heq).1
    · rename_i heq
      exact absurd rfl (h 3 heq).2
    · rfl

/-- C6 witness: an array response is read through its first element,
a plain object directly, and a status-7 observation keeps the loop
polling with one added sleep. -/
theorem c6_normalize_and_continue_witness :
    statusOf (.arr [.obj [("status", .num 7)]]) = some 7 ∧
    statusOf (.obj [("status", .num 5)]) = some 5 ∧
    pollLoop [.ok (.obj [("status", .num 7)])] =
      ⟨(pollLoop []).outcome, (pollLoop []).sleeps + 1, (pollLoop []).calls + 1⟩ := by
  refine ⟨?_, ?_, ?_⟩
  · rw [c6_normalize_and_continue.1 (.obj [("status", .num 7)]) []]
    rfl
  · rw [c6_normalize_and_continue.2.2.1 (.obj [("status", .num 5)]) rfl]
    rfl
  · exact c6_normalize_and_continue.2.2.2 (.obj [("status", .num 7)]) []
      (by intro s hs
          simp [statusOf, Json.isArr, Json.get, List.lookup, Json.asI64] at hs
          omega)

/-- C7: on every failure outcome of `generate` the trace contains no
filesystem write; and any write the trace contains is the single
artifact write, whose bytes are exactly those of a fully successful
artifact download. -/
theorem c7_no_write_on_failure (a : Args) (env : Env) (r : Except GErr Json)
    (t : Trace) (h : generate a env = (r, t)) :
    (r.isOk = false → t.writes = []) ∧
    (∀ p bs, (p, bs) ∈ t.writes →
      t.writes = [(p, bs)] ∧
      (zipFetchLoop 0 env.zipResps).outcome = .success bs) := by
  unfold generate at h
  repeat' split at h
  all_goals cases h
  all_goals simp_all [Trace.empty, Except.isOk, Except.toBool]

/-- C7 witness: a failing run (invalid duration) writes nothing. -/
theorem c7_no_write_on_failure_witness :
    ((Except.error GErr.invalidDuration : Except GErr Json).isOk = false →
        Trace.empty.writes = []) ∧
    (∀ p bs, (p, bs) ∈ Trace.empty.writes →
        Trace.empty.writes = [(p, bs)] ∧
        (zipFetchLoop 0 probeEnv.zipResps).outcome = .success bs) :=
  c7_no_write_on_failure probeArgs probeEnv (.error .invalidDuration) Trace.empty rfl

/-- C8: for every duration other than 5 and 10, `generate` fails with
the invalid-duration error and an empty trace: no request body was
built or submitted, no poll or artifact call was made, nothing was
written — regardless of all other arguments and of the
environment. -/
theorem c8_invalid_duration (a : Args) (env : Env)
    (h5 : a.duration ≠ 5) (h10 : a.duration ≠ 10) :
    generate a env = (.error .invalidDuration, Trace.empty) := by
  unfold generate
  simp [h5, h10]

/-- C8 witness: duration 7 fails before any effect. -/
theorem c8_invalid_duration_witness :
    generate probeArgs probeEnv = (.error .invalidDuration, Trace.empty) :=
  c8_invalid_duration probeArgs probeEnv (by decide) (by decide)

/-- C9: every non-blocking call whose submission stage succeeds
(validation passes, the image read succeeds, the POST yields a
payload containing a numeric `animation_id`) returns the raw
submission response with a trace showing zero poll calls, zero
artifact-fetch calls and zero writes. -/
theorem c9_nonblocking (a : Args) (env : Env) (j : Json)
    (hdur : a.duration = 5 ∨ a.duration = 10)
    (hmodel : ¬(a.modelId.isSome ∧ a.modelName.isSome))
    (himg : ∃ s, inputImageB64 env a.inputImagePath = .ok s)
    (hsub : env.submit = .ok j)
    (hid : ((j.get "animation_id").bind Json.asI64).isSome)
    (hblock : a.block = false) :
    ∃ s, generate a env = (.ok j, ⟨some (buildBody a s), 0, 0, 0, 0, []⟩) := by
  obtain ⟨s, hb⟩ := himg
  refine ⟨s, ?_⟩
  obtain ⟨i, hi⟩ := Option.isSome_iff_exists.mp hid
  unfold generate
  rcases hdur with h | h <;> simp [h, hmodel, hb, hsub, hi, hblock]

/-- C9 witness: a concrete non-blocking run returns the raw
submission payload untouched, with poll and artifact responses left
unconsumed. -/
theorem c9_nonblocking_witness :
    ∃ s, generate c9Args c9Env =
      (.ok (.obj [("animation_id", .num 1)]),
       ⟨some (buildBody c9Args s), 0, 0, 0, 0, []⟩) :=
  c9_nonblocking c9Args c9Env (.obj [("animation_id", .num 1)])
    (Or.inl rfl) (by decide) ⟨"", rfl⟩ rfl rfl rfl

/-- C10: every submitted request body contains the
`input_image_base64` field: the empty string when no input image path
was given, and the base64 encoding of the bytes read from the file
when a path was given (so reaching submission requires the read to
have succeeded); the field is never omitted. -/
theorem c10_input_image_field (a : Args) (env : Env) (r : Except GErr Json)
    (t : Trace) (b : Json)
    (h : generate a env = (r, t)) (hs : t.submitted = some b) :
    (a.inputImagePath = none → b.get "input_image_base64" = some (.str "")) ∧
    (∀ p, a.inputImagePath = some p →
      ∃ bytes, env.readFile p = .ok bytes ∧
        b.get "input_image_base64" = some (.str (base64Encode bytes))) := by
  rcases submitted_shape a env r t h with hnone | ⟨b64, hok, hsub⟩
  · rw [hnone] at hs
    cases hs
  · rw [hsub] at hs
    injection hs with hb
    subst hb
    constructor
    · intro hn
      rw [hn] at hok
      simp [inputImageB64] at hok
      subst hok
      exact buildBody_b64 a ""
    · intro p hp
      rw [hp] at hok
      simp only [inputImageB64] at hok
      cases hr : env.readFile p with
      | error e =>
        rw [hr] at hok
        simp [Except.map] at hok
      | ok bytes =>
        rw [hr] at hok
        simp [Except.map] at hok
        subst hok
        exact ⟨bytes, rfl, buildBody_b64 a _⟩

/-- C10 witness: a run with an input image whose bytes are
`[77, 78, 79]` submits a body whose `input_image_base64` field is
their base64 encoding. -/
theorem c10_input_image_field_witness :
    (c10Args.inputImagePath = none →
        (buildBody c10Args (base64Encode [77, 78, 79])).get "input_image_base64" =
          some (.str "")) ∧
    (∀ p, c10Args.inputImagePath = some p →
        ∃ bytes, c10Env.readFile p = .ok bytes ∧
          (buildBody c10Args (base64Encode [77, 78, 79])).get "input_image_base64" =
            some (.str (base64Encode bytes))) :=
  c10_input_image_field c10Args c10Env (.ok (.obj [("animation_id", .num 1)]))
    ⟨some (buildBody c10Args (base64Encode [77, 78, 79])), 0, 0, 0, 0, []⟩
    (buildBody c10Args (base64Encode [77, 78, 79])) rfl rfl

end GameTorch
